import Mathlib

/-
  Verification of the image_mcp repository (an MCP server that normalizes
  image references and forwards chat-completion requests to an
  OpenAI-compatible endpoint).

  Shallow embedding:
  * JavaScript strings are modelled as `List Char` (abbreviated `Str`).
  * External effects (file system, outbound HTTP, `Date.now()`, `JSON.parse`,
    Node's `URL`/`path` libraries) are modelled as explicit oracle
    parameters, so every definition stays a pure, executable function.
  * Fallible code returns `Except Str _`; a thrown `Error(msg)` is `.error msg`.

  Sources:
  * `ImageProcessor` (src/unnamed/part_001)
  * `OpenAIClient` (src/unnamed/part_002)
  * tool handlers `handleSummarizeImage` / `handleCompareImages`
    (src/unnamed/part_000)
-/

/-- A JavaScript string, modelled as its list of characters. -/
abbrev Str := List Char

/-- Shorthand converting a Lean string literal to the `Str` model. -/
def str (s : String) : Str := s.toList

/-- The character class of JavaScript's regex `\s` (whitespace). -/
def isJsWs (c : Char) : Bool :=
  [' ', '\t', '\n', '\r', '\u000B', '\u000C', '\u00A0', '\u1680',
   '\u2028', '\u2029', '\u202F', '\u205F', '\u3000', '\uFEFF'].contains c
  || (decide (0x2000 ≤ c.toNat) && decide (c.toNat ≤ 0x200A))

/-- Characters matched by JavaScript's regex `.` (anything but a line
terminator: `\n`, `\r`, U+2028, U+2029). -/
def isJsDot (c : Char) : Bool :=
  !(['\n', '\r', '\u2028', '\u2029'].contains c)

/-- The base64 alphabet proper `[A-Za-z0-9+/]` (no padding). -/
def b64Char (c : Char) : Bool :=
  (decide ('A' ≤ c) && decide (c ≤ 'Z')) ||
  (decide ('a' ≤ c) && decide (c ≤ 'z')) ||
  (decide ('0' ≤ c) && decide (c ≤ '9')) ||
  c = '+' || c = '/'

/-- The character class `[A-Za-z0-9\/+=]` used by the classifier's raw-base64
test (padding `=` included). -/
def isB64InputChar (c : Char) : Bool :=
  b64Char c || c = '='

/-- JavaScript `String.prototype.startsWith(pat)`: anchored literal prefix
test (recursing on the pattern, so it computes even when only a prefix of
the subject is known). -/
def startsW : Str → Str → Bool
  | [], _ => true
  | a :: as, s =>
    match s with
    | [] => false
    | b :: bs => a = b && startsW as bs

/-- JavaScript `String.prototype.includes`: does `pat` occur as a contiguous
substring of `s`? -/
def containsSub (pat : Str) : Str → Bool
  | [] => startsW pat []
  | c :: rest => startsW pat (c :: rest) || containsSub pat rest

/-- Case-insensitive anchored match of a (lowercase) literal pattern, the
building block for the `/^https?:\/\/.../i` regex tests; returns the
remainder of the input after the pattern. -/
def matchCi : Str → Str → Option Str
  | [], s => some s
  | _ :: _, [] => none
  | p :: ps, c :: cs => if c.toLower = p then matchCi ps cs else none

/-- JavaScript `String.prototype.split(sep)` for a one-character separator
(always returns at least one piece). -/
def splitOnChar (sep : Char) : Str → List Str
  | [] => [[]]
  | c :: rest =>
    let r := splitOnChar sep rest
    if c = sep then [] :: r
    else match r with
      | h :: t => (c :: h) :: t
      | [] => [[c]]

/-- JavaScript `String.prototype.trim` (strips `\s` from both ends). -/
def jsTrim (s : Str) : Str :=
  ((s.dropWhile isJsWs).reverse.dropWhile isJsWs).reverse

/-- `','.join`-style concatenation used for `errors.join(', ')`. -/
def joinComma : List Str → Str
  | [] => []
  | [e] => e
  | e :: rest => e ++ str ", " ++ joinComma rest

/- ===================== ImageProcessor (part_001) ===================== -/

/-- `ImageProcessor.SUPPORTED_MIME_TYPES`. -/
def SUPPORTED_MIME_TYPES : List Str :=
  [str "image/jpeg", str "image/png", str "image/gif", str "image/webp",
   str "image/svg+xml", str "image/bmp", str "image/tiff"]

/-- `ImageProcessor.MAX_FILE_SIZE` (10 MB). -/
def MAX_FILE_SIZE : Nat := 10 * 1024 * 1024

/-- The `type` discriminant of `ImageInfo`. -/
inductive ImageSrcType where
  | file
  | base64
  | url
deriving DecidableEq

/-- `ImageInfo` from part_001. -/
structure ImageInfo where
  type : ImageSrcType
  data : Str
  mimeType : Str
  size : Nat
deriving DecidableEq

/-- `ProcessedImage` from part_001 (the `NormalizedImage` of the spec). -/
structure ProcessedImage where
  url : Str
  mimeType : Str
  size : Nat
deriving DecidableEq

/-- The regex test `/^https?:\/\/.+/i` (prefix `http://` or `https://`,
case-insensitively, followed by at least one `.`-matching character). -/
def httpUrlTest (s : Str) : Bool :=
  match matchCi (str "http://") s with
  | some (c :: _) => isJsDot c
  | _ =>
    match matchCi (str "https://") s with
    | some (c :: _) => isJsDot c
    | _ => false

/-- The regex test `/^https?:\/\/.+\/.+$/i` used as `urlPattern`: after the
scheme the whole remainder must be `.+/.+`, i.e. consist of `.`-matching
characters and contain an interior `/`. -/
def urlPatternTail (r : Str) : Bool :=
  r.all isJsDot && (r.drop 1).dropLast.contains '/'

/-- The full `urlPattern` test from `processUrlInput`/`validateImageInput`. -/
def urlPatternTest (s : Str) : Bool :=
  match matchCi (str "http://") s with
  | some r => urlPatternTail r
  | none =>
    match matchCi (str "https://") s with
    | some r => urlPatternTail r
    | none => false

/-- First char is `/` or `.` — the regex `/^[\/.]/` in `validateImageInput`. -/
def startsSlashOrDot : Str → Bool
  | c :: _ => c = '/' || c = '.'
  | [] => false

/-- The regex `/^\.[/\\]/`: a dot followed by a path separator. -/
def dotSlashTest : Str → Bool
  | '.' :: c :: _ => c = '/' || c = '\\'
  | _ => false

/-- `ImageProcessor.isFileInput` (part_001 lines 88-119), the path/URL/base64
classifier heuristic.  Note that line 114 of the source compares against the
literal string `'/([A-Za-z]:\\|\\\\)/'` (a `startsWith` call on regex-looking
text), which we reproduce verbatim. -/
def isFileInput (input : Str) : Bool :=
  if httpUrlTest input then false
  else if startsW (str "file://") input then true
  else if startsW (str "data:image/") input && containsSub (str "base64") input then false
  else if input.all isB64InputChar then false
  else
    startsW (str "/") input ||
    startsW (str "./") input ||
    startsW (str "../") input ||
    startsW (str "/([A-Za-z]:\\|\\\\)/") input ||
    dotSlashTest input ||
    (input.contains '.' &&
      (["jpg", "jpeg", "png", "gif", "webp", "bmp", "tiff"].map str).contains
        (((splitOnChar '.' input).getLastD []).map Char.toLower))

/-- The body of the base64-format regex
`/^([A-Za-z0-9+/]{4})*([A-Za-z0-9+/]{3}=|[A-Za-z0-9+/]{2}==)?$/`:
whole groups of four, the last optionally padded. -/
def base64Body : Str → Bool
  | [] => true
  | c1 :: c2 :: c3 :: c4 :: rest =>
    b64Char c1 && b64Char c2 &&
    ((b64Char c3 && b64Char c4 && base64Body rest) ||
     (rest.isEmpty && ((b64Char c3 && c4 = '=') || (c3 = '=' && c4 = '='))))
  | _ => false

/-- `ImageProcessor.isValidBase64`: strip `\s`, then match the grouped
base64 regex. -/
def isValidBase64 (s : Str) : Bool :=
  base64Body (s.filter (fun c => !isJsWs c))

/-- The length-related errors collected by `validateImageInput`. -/
def lengthErrors (s : Str) : List Str :=
  (if s.length = 0 then [str "Image input cannot be empty"] else []) ++
  (if s.length > 200 * 1024 then [str "Image input is too large (max 200KB)"] else [])

/-- The shape-related errors collected by `validateImageInput` (file-path
check, URL check, or base64 plausibility check). -/
def shapeErrors (s : Str) : List Str :=
  if isFileInput s then
    if !startsSlashOrDot s && !s.contains '.' then
      [str "File path must be absolute, relative, or include a file extension"]
    else []
  else if httpUrlTest s then
    if !urlPatternTest s then
      [str "Invalid image URL format. Supported formats: jpg, jpeg, png, gif, webp, bmp, tiff"]
    else []
  else if !containsSub (str "base64") s && !s.all isB64InputChar then
    [str "Base64 input should contain \"base64\" or be valid base64 characters"]
  else []

/-- `ImageProcessor.validateImageInput` (part_001 lines 351-387).  A falsy
(empty) input returns early; otherwise the error lists are accumulated and
validity is their emptiness. -/
def validateImageInput (s : Str) : Bool × List Str :=
  if s = [] then (false, [str "Image input is required and must be a string"])
  else
    let errors := lengthErrors s ++ shapeErrors s
    (errors.isEmpty, errors)

/-- The regex `^data:([^;]+);base64,` match of `processBase64Input`: extract
the declared MIME type and the remainder after the header.  `[^;]+` is
greedy but cannot cross a `;`, so the match is the span up to the first `;`,
which must then be followed by the literal `;base64,`. -/
def parseDataHeader (s : Str) : Option (Str × Str) :=
  if startsW (str "data:") s then
    let t := s.drop 5
    let mime := t.takeWhile (fun c => c ≠ ';')
    let rest := t.dropWhile (fun c => c ≠ ';')
    if !mime.isEmpty && startsW (str ";base64,") rest then
      some (mime, rest.drop 8)
    else none
  else none

/-- `ImageProcessor.processBase64Input` (part_001 lines 255-297): header MIME
extraction (default `image/jpeg`), supported-type gate, the
`floor(length * 3/4)` size estimate against the ceiling, and the base64
syntax check.  Thrown errors carry the catch-block prefix. -/
def processBase64Input (input : Str) : Except Str ImageInfo :=
  let parsed := parseDataHeader input
  let mimeType := match parsed with
    | some (m, _) => m
    | none => str "image/jpeg"
  let data := match parsed with
    | some (_, rest) => rest
    | none => input
  if !SUPPORTED_MIME_TYPES.contains mimeType then
    .error (str "Failed to process base64 input: Unsupported image type: " ++ mimeType)
  else
    let size := data.length * 3 / 4
    if size > MAX_FILE_SIZE then
      .error (str "Failed to process base64 input: Base64 image exceeds maximum limit of 10485760 bytes")
    else if !isValidBase64 data then
      .error (str "Failed to process base64 input: Invalid base64 format")
    else
      .ok ⟨.base64, data, mimeType, size⟩

/-- The result of an `axios.get(url, {responseType:'arraybuffer'})` call:
either a resolved response (status, body as base64, body byte length,
optional `Content-Type` header) or a rejection message. -/
inductive HttpFetch where
  | ok (status : Nat) (bodyBase64 : Str) (byteLen : Nat) (contentType : Option Str)
  | err (msg : Str)

/-- Oracles for the external effects and libraries consulted by
`ImageProcessor`: `path.resolve`, `fs.pathExists`, `fs.stat().size`,
`mimeTypes.lookup` (`none` = lookup returned false), `fs.readFile(_, 'base64')`,
`axios.get`, and `path.extname(new URL(url).pathname).toLowerCase()`. -/
structure Env where
  resolvePath : Str → Str
  pathExists : Str → Bool
  fileSize : Str → Nat
  mimeLookup : Str → Option Str
  readFileBase64 : Str → Str
  httpGet : Str → HttpFetch
  urlExtname : Str → Str

/-- The extension-to-MIME `switch` in `processUrlInput` (default
`image/jpeg`; note `.svg` is absent from the switch). -/
def extToMime (ext : Str) : Str :=
  if ext = str ".jpg" || ext = str ".jpeg" then str "image/jpeg"
  else if ext = str ".png" then str "image/png"
  else if ext = str ".gif" then str "image/gif"
  else if ext = str ".webp" then str "image/webp"
  else if ext = str ".bmp" then str "image/bmp"
  else if ext = str ".tiff" || ext = str ".tif" then str "image/tiff"
  else str "image/jpeg"

/-- `ImageProcessor.processUrlInput` (part_001 lines 170-250). -/
def processUrlInput (env : Env) (url : Str) : Except Str ImageInfo :=
  if !urlPatternTest url then
    .error (str "Failed to process URL input: Invalid image URL format: " ++ url)
  else
    match env.httpGet url with
    | .err m => .error (str "Failed to process URL input: " ++ m)
    | .ok status body64 byteLen contentType =>
      if status ≠ 200 then
        .error (str "Failed to process URL input: Failed to download image. HTTP status: "
                ++ str (toString status))
      else if byteLen > MAX_FILE_SIZE then
        .error (str "Failed to process URL input: Image size exceeds maximum limit of 10485760 bytes")
      else
        let mimeType := match contentType with
          | some ct => ct
          | none => extToMime (env.urlExtname url)
        if !SUPPORTED_MIME_TYPES.contains mimeType then
          .error (str "Failed to process URL input: Unsupported image type: " ++ mimeType)
        else
          .ok ⟨.url, body64, mimeType, byteLen⟩

/-- `ImageProcessor.processFileInput` (part_001 lines 124-165). -/
def processFileInput (env : Env) (filePath : Str) : Except Str ImageInfo :=
  let absolutePath := env.resolvePath filePath
  if !env.pathExists absolutePath then
    .error (str "Failed to process file input: File not found: " ++ filePath)
  else
    let size := env.fileSize absolutePath
    if size > MAX_FILE_SIZE then
      .error (str "Failed to process file input: File size exceeds maximum limit of 10485760 bytes")
    else
      let mimeType := match env.mimeLookup absolutePath with
        | some m => m
        | none => str "application/octet-stream"
      if !SUPPORTED_MIME_TYPES.contains mimeType then
        .error (str "Failed to process file input: Unsupported image type: " ++ mimeType)
      else
        .ok ⟨.file, env.readFileBase64 absolutePath, mimeType, size⟩

/-- `ImageProcessor.validateImage` (part_001 lines 302-319), run on every
`ImageInfo` before assembly. -/
def validateImage (info : ImageInfo) : Except Str Unit :=
  if !SUPPORTED_MIME_TYPES.contains info.mimeType then
    .error (str "Unsupported image type: " ++ info.mimeType)
  else if info.size > MAX_FILE_SIZE then
    .error (str "Image size exceeds maximum limit of 10485760 bytes")
  else if (info.type = .base64 || info.type = .url) && !isValidBase64 info.data then
    .error (str "Invalid base64 format")
  else
    .ok ()

/-- `ImageProcessor.formatImageUrl`: both branches emit
`data:<mime>;base64,<data>`. -/
def formatImageUrl (info : ImageInfo) : Str :=
  str "data:" ++ info.mimeType ++ str ";base64," ++ info.data

/-- Which per-kind processor a classified input is routed to. -/
inductive ProcessPath where
  | base64Path
  | urlPath
  | filePath
deriving DecidableEq

/-- The dispatch performed inside `processImage` (part_001 lines 56-69):
first the `includes('BASE64')` pass-through test, then the HTTP/HTTPS regex,
then `isFileInput`, and otherwise the base64 fallback. -/
def dispatchPath (s : Str) : ProcessPath :=
  if containsSub (str "BASE64") s then .base64Path
  else if httpUrlTest s then .urlPath
  else if isFileInput s then .filePath
  else .base64Path

/-- The tail of `processImage` (part_001 lines 71-81): validate the
assembled `ImageInfo` and convert it to the canonical URL format. -/
def finishImage (info : ImageInfo) : Except Str ProcessedImage :=
  match validateImage info with
  | .error e => .error e
  | .ok _ => .ok ⟨formatImageUrl info, info.mimeType, info.size⟩

/-- `ImageProcessor.processImage` (part_001 lines 40-82): strip a `file://`
prefix, run the pre-validation gate, dispatch to a per-kind processor,
validate the result and assemble the canonical data URL. -/
def processImage (env : Env) (imageInput : Str) : Except Str ProcessedImage :=
  let processedInput :=
    if startsW (str "file://") imageInput then imageInput.drop 7 else imageInput
  let v := validateImageInput processedInput
  if !v.1 then
    .error (str "Invalid image input: " ++ joinComma v.2)
  else
    let step :=
      match dispatchPath processedInput with
      | .base64Path => processBase64Input processedInput
      | .urlPath => processUrlInput env processedInput
      | .filePath => processFileInput env processedInput
    match step with
    | .error e => .error e
    | .ok info => finishImage info

/- ===================== OpenAIClient (part_002) ===================== -/

/-- The `role` enum of `ChatMessage` (the TypeScript union
`'system' | 'user' | 'assistant'`). -/
inductive Role where
  | system
  | user
  | assistant
deriving DecidableEq

/-- One element of a message's `content` array: the tagged union
`{type:'text', text}` / `{type:'image_url', image_url:{url}}`. -/
inductive ContentBlock where
  | text (t : Str)
  | image (url : Str)
deriving DecidableEq

/-- `ChatMessage` from part_002. -/
structure ChatMessage where
  role : Role
  content : List ContentBlock
deriving DecidableEq

/-- `ChatRequest` from part_002.  The optional sampling parameters
(`max_tokens`, `temperature`, `top_p`, `frequency_penalty`,
`presence_penalty`) are never read by the modelled code and are omitted;
the optional `stream` flag is modelled as a `Bool` because every use site
tests it for truthiness (absent ≡ false). -/
structure ChatRequest where
  model : Str
  messages : List ChatMessage
  stream : Bool
deriving DecidableEq

/-- The `finish_reason` union (absent and JSON `null` both map to `none`). -/
inductive FinishReason where
  | stop
  | length
  | content_filter
deriving DecidableEq

/-- The `delta` object of a streaming choice. -/
structure Delta where
  role : Option Str := none
  content : Option Str := none
deriving DecidableEq

/-- The `message` object of a non-streaming choice. -/
structure AssistantMsg where
  content : Str
deriving DecidableEq

/-- One element of `ChatResponse.choices`. -/
structure Choice where
  index : Nat
  message : Option AssistantMsg := none
  delta : Option Delta := none
  finish_reason : Option FinishReason := none
deriving DecidableEq

/-- The optional `usage` object of `ChatResponse`. -/
structure Usage where
  prompt_tokens : Nat
  completion_tokens : Nat
  total_tokens : Nat
deriving DecidableEq

/-- `ChatResponse` from part_002. -/
structure ChatResponse where
  id : Str
  object : Str
  created : Nat
  model : Str
  choices : List Choice
  usage : Option Usage := none
deriving DecidableEq

/-- The inline request validation at the top of `chatCompletion`
(part_002 lines 149-173).  In the typed model the per-message checks can
never fail: `role` is an enum member by construction, and
`!message.content || !Array.isArray(message.content)` is false for every
array — including the empty array, which is truthy in JavaScript — so no
emptiness requirement is enforced here. -/
def chatValidationError (req : ChatRequest) : Option Str :=
  if jsTrim req.model = [] then
    some (str "Model is required and must be a non-empty string")
  else if req.messages = [] then
    some (str "Messages are required and must be a non-empty array")
  else
    none

/-- The per-message error accumulation of `validateChatRequest`
(part_002 lines 346-356): `Message i+1: Content is required` whenever a
message's content array is empty (the role check cannot fire on typed
input). -/
def messageErrors : Nat → List ChatMessage → List Str
  | _, [] => []
  | i, m :: rest =>
    (if m.content = [] then
      [str ("Message " ++ toString (i + 1) ++ ": Content is required")]
     else []) ++ messageErrors (i + 1) rest

/-- `OpenAIClient.validateChatRequest` (part_002 lines 335-362).  Note this
helper is not invoked by `chatCompletion`.  JavaScript's
`if (request.messages)` is true even for an empty array, so the loop always
runs. -/
def validateChatRequest (req : ChatRequest) : Bool × List Str :=
  let errors :=
    (if req.model = [] then [str "Model is required"] else []) ++
    (if req.messages = [] then [str "Messages are required"] else []) ++
    messageErrors 0 req.messages
  (errors.isEmpty, errors)

/-- The body a resolved POST to `/chat/completions` carries: parsed JSON for
`responseType:'json'`, or the raw SSE byte stream (a list of decoded chunk
strings) for `responseType:'stream'`. -/
inductive BodyData where
  | json (r : ChatResponse)
  | sse (chunks : List Str)

/-- One HTTP attempt's outcome, as seen by the axios response interceptor:
a resolved response, a rejected response with a status, or a network-level
failure with no response at all. -/
inductive HttpOutcome where
  | ok (body : BodyData)
  | httpError (status : Nat)
  | netError

/-- `OpenAIClient.shouldRetry` (part_002 lines 113-123): retry when there is
no response (network error/timeout) or the status is ≥ 500 or exactly 429.
A resolved response never reaches the interceptor's rejection handler; the
`.ok` case is included only to keep the function total. -/
def shouldRetry : HttpOutcome → Bool
  | .ok _ => false
  | .httpError status => decide (status ≥ 500) || decide (status = 429)
  | .netError => true

/-- What a whole retried request run produced: total attempt count, the
backoff delays inserted (in order, in milliseconds), and the last outcome. -/
structure RetryResult where
  attempts : Nat
  delays : List Nat
  outcome : HttpOutcome

/-- The retry interceptor loop (part_002 lines 81-105).  `n` is the number
of attempts already made (the pre-increment `config.retryCount`);
`remaining` is `maxRetries - n`, so `remaining = 0` iff
`config.retryCount >= this.maxRetries`.  The delay inserted after the
increment is `min(1000 * 2^(retryCount-1), 30000)` with the post-increment
counter `n+1`, i.e. `min(1000 * 2^n, 30000)`. -/
def retryLoop (outcomes : Nat → HttpOutcome) : Nat → Nat → List Nat → RetryResult
  | n, remaining, delays =>
    match outcomes n, remaining with
    | .ok b, _ => ⟨n + 1, delays, .ok b⟩
    | o, rem + 1 =>
      if shouldRetry o then
        retryLoop outcomes (n + 1) rem (delays ++ [min (1000 * 2 ^ n) 30000])
      else ⟨n + 1, delays, o⟩
    | o, 0 => ⟨n + 1, delays, o⟩

/-- A full run of a request through the retrying axios client: attempt 0 is
the initial try, and up to `maxRetries` retries follow. -/
def runRetry (maxRetries : Nat) (outcomes : Nat → HttpOutcome) : RetryResult :=
  retryLoop outcomes 0 maxRetries []

/-- The message axios attaches to a failed request, consumed by
`getErrorString` (part_002 lines 311-328) through the
`axiosError.message` branch (modelled from axios's documented behaviour,
an external collaborator). -/
def axiosErrorMessage : HttpOutcome → Str
  | .httpError status => str ("Request failed with status code " ++ toString status)
  | .netError => str "Network Error"
  | .ok _ => []

/-- `OpenAIClient.createEmptyResponse` (part_002 lines 296-304).  `created`
is `Date.now()`, threaded in as the oracle value `now`. -/
def createEmptyResponse (now : Nat) (model : Str) : ChatResponse :=
  { id := [], object := str "chat.completion", created := now, model := model,
    choices := [] }

/-- The mutable state of `handleStreamResponse`: the sequence of `onChunk`
invocations made so far (in order) and the retained final response. -/
structure StreamAcc where
  events : List ChatResponse
  finalResponse : Option ChatResponse
deriving DecidableEq

/-- Does a chunk's first choice carry `finish_reason === 'stop'`
(part_002 line 253)? -/
def hasStop (r : ChatResponse) : Bool :=
  match r.choices with
  | c :: _ => c.finish_reason = some .stop
  | [] => false

/-- Processing of one complete line inside `handleStreamResponse`
(part_002 lines 241-259): a `data: ` line that is not the `[DONE]` sentinel
is JSON-parsed (`parse` is the `JSON.parse` oracle; `none` models a parse
failure, which is logged and skipped); a successful parse is appended to the
`onChunk` invocation sequence and, when its first choice carries
`finish_reason = stop`, retained as the final response. -/
def processLine (parse : Str → Option ChatResponse) (acc : StreamAcc)
    (line : Str) : StreamAcc :=
  if startsW (str "data: ") line then
    let data := line.drop 6
    if data = str "[DONE]" then acc
    else
      match parse data with
      | none => acc
      | some parsed =>
        { events := acc.events ++ [parsed],
          finalResponse := if hasStop parsed then some parsed else acc.finalResponse }
  else acc

/-- The chunk loop of `handleStreamResponse` (part_002 lines 230-286):
each arriving chunk is appended to the carry-over buffer, the buffer is
split on newlines, the last (possibly incomplete) piece is kept buffered and
the complete lines are processed; at end of stream a non-blank remaining
buffer is split and processed too. -/
def handleStreamLoop (parse : Str → Option ChatResponse) :
    List Str → Str → StreamAcc → StreamAcc
  | [], buffer, acc =>
    if jsTrim buffer ≠ [] then (splitOnChar '\n' buffer).foldl (processLine parse) acc
    else acc
  | chunk :: rest, buffer, acc =>
    let lines := splitOnChar '\n' (buffer ++ chunk)
    handleStreamLoop parse rest (lines.getLastD [])
      (lines.dropLast.foldl (processLine parse) acc)

/-- `OpenAIClient.handleStreamResponse` (part_002 lines 222-289), returning
the invocation sequence and the retained final response. -/
def handleStreamResponse (parse : Str → Option ChatResponse)
    (stream : List Str) : StreamAcc :=
  handleStreamLoop parse stream [] ⟨[], none⟩

/-- The complete-lines sequence the stream loop ends up processing:
per-chunk complete lines plus the final non-blank buffer split. -/
def allLinesLoop : List Str → Str → List Str
  | [], buffer => if jsTrim buffer ≠ [] then splitOnChar '\n' buffer else []
  | chunk :: rest, buffer =>
    let lines := splitOnChar '\n' (buffer ++ chunk)
    lines.dropLast ++ allLinesLoop rest (lines.getLastD [])

/-- The payload of a line, when it is a complete non-sentinel `data: ` line. -/
def dataPayload (line : Str) : Option Str :=
  if startsW (str "data: ") line then
    if line.drop 6 = str "[DONE]" then none else some (line.drop 6)
  else none

/-- All non-sentinel `data: ` payloads of a stream, in arrival order. -/
def dataPayloads (stream : List Str) : List Str :=
  (allLinesLoop stream []).filterMap dataPayload

/-- The last chunk of a sequence whose first choice carries
`finish_reason = stop` (the retained "final" response: later stop chunks
overwrite earlier ones). -/
def lastStop (cs : List ChatResponse) : Option ChatResponse :=
  (cs.filter hasStop).getLast?

/-- The value returned by the streaming branch of `chatCompletion`
(part_002 lines 204-206): the retained final response, or
`createEmptyResponse(request.model)` when the stream never produced one. -/
def chatCompletionStreamFinal (parse : Str → Option ChatResponse)
    (stream : List Str) (now : Nat) (model : Str) : ChatResponse :=
  ((handleStreamResponse parse stream).finalResponse).getD (createEmptyResponse now model)

/-- The value `chatCompletion` resolves with: either the result of the
streaming-accumulation path, or — on the non-streaming branch — the raw
response body returned verbatim (`response?.data as ChatResponse`, an
unchecked cast that performs no SSE parsing). -/
inductive CCValue where
  | fromStream (r : ChatResponse)
  | rawBody (b : BodyData)

/-- Everything observable about one `chatCompletion` call: the validation
error (if validation threw before any network activity), which request body
was POSTed (if any), the HTTP attempt count and backoff delays, the sequence
of `onChunk` invocations, and the value or error the promise settles with. -/
structure CCOutcome where
  validationError : Option Str
  posted : Option ChatRequest
  attempts : Nat
  delays : List Nat
  chunkEvents : List ChatResponse
  result : Except Str CCValue

/-- The content mapping building `modifiedRequest` (part_002 lines 177-195):
text blocks pass through, image blocks are rebuilt with the same URL, so the
mapping is the identity on typed content. -/
def modifyBlock : ContentBlock → ContentBlock
  | .text t => .text t
  | .image u => .image u

/-- The `modifiedRequest` actually POSTed by `chatCompletion`. -/
def modifyRequest (req : ChatRequest) : ChatRequest :=
  { req with
    messages := req.messages.map fun msg =>
      { msg with content := msg.content.map modifyBlock } }

/-- `OpenAIClient.chatCompletion` (part_002 lines 144-214), over the retry
interceptor.  `hasOnChunk` is whether an `onChunk` callback was supplied;
`outcomes` gives each HTTP attempt's result; `parse` is `JSON.parse`;
`now` is `Date.now()`.  The dispatch condition
`request.stream && onChunk && typeof response?.data === 'object'` reduces to
`req.stream && hasOnChunk` because both body variants are objects.  On the
streaming path a JSON body yields no iterable chunks. -/
def chatCompletionModel (maxRetries : Nat) (req : ChatRequest)
    (hasOnChunk : Bool) (outcomes : Nat → HttpOutcome)
    (parse : Str → Option ChatResponse) (now : Nat) : CCOutcome :=
  match chatValidationError req with
  | some e => ⟨some e, none, 0, [], [], .error e⟩
  | none =>
    let r := runRetry maxRetries outcomes
    match r.outcome with
    | .ok body =>
      if req.stream && hasOnChunk then
        let chunks := match body with
          | .sse cs => cs
          | .json _ => []
        let st := handleStreamResponse parse chunks
        ⟨none, some (modifyRequest req), r.attempts, r.delays, st.events,
         .ok (.fromStream (chatCompletionStreamFinal parse chunks now req.model))⟩
      else
        ⟨none, some (modifyRequest req), r.attempts, r.delays, [],
         .ok (.rawBody body)⟩
    | o =>
      ⟨none, some (modifyRequest req), r.attempts, r.delays, [],
       .error (str "Chat completion failed: " ++ axiosErrorMessage o)⟩

/- ============== Tool handlers (part_000) ============== -/

/-- The delta content a single chunk contributes:
`chunk.choices?.[0]?.delta?.content || ''`. -/
def deltaContent (chunk : ChatResponse) : Str :=
  ((chunk.choices.head?.bind Choice.delta).bind Delta.content).getD []

/-- One step of the accumulation callback of `handleSummarizeImage` /
`handleCompareImages` (part_000 lines 416-423, 511-518): append
`chunk.choices?.[0]?.delta?.content || ''` when it is non-empty. -/
def accumStep (acc : Str) (chunk : ChatResponse) : Str :=
  let chunkContent := deltaContent chunk
  if chunkContent ≠ [] then acc ++ chunkContent else acc

/-- The accumulated streaming text: the accumulation callback applied to the
whole `onChunk` invocation sequence, starting from `''`. -/
def accumulateChunks (events : List ChatResponse) : Str :=
  events.foldl accumStep []

/-- Plain concatenation of the chunks' delta contents, in order. -/
def concatDeltas (events : List ChatResponse) : Str :=
  (events.map deltaContent).flatten

/-- The default prompt of `compare_images`. -/
def defaultComparePrompt : Str :=
  str "Compare these images in detail, including all text, and describe the similarities and differences."

/-- `Promise.all(image_urls.map(...))` (part_000 lines 467-474): every task
is started, results are reassembled by index in caller order; the settled
value is the first rejection (in index order in this deterministic model) or
the ordered list of all results. -/
def promiseAllMap (f : Str → Except Str ProcessedImage) :
    List Str → Except Str (List ProcessedImage)
  | [] => .ok []
  | u :: rest =>
    match f u with
    | .error e => .error e
    | .ok img =>
      match promiseAllMap f rest with
      | .error e => .error e
      | .ok imgs => .ok (img :: imgs)

/-- The request-construction phase of `handleCompareImages` (part_000 lines
456-507): arity check, parallel normalization, then a content array built by
pushing one image block per processed image after the prompt text block.
`modelName` is the resolved `configManager.getModel() || default` value and
`enableStreaming` the transport-dependent streaming flag (both external
configuration). -/
def buildCompareRequest (env : Env) (modelName : Str) (enableStreaming : Bool)
    (image_urls : List Str) (custom_prompt : Option Str) : Except Str ChatRequest :=
  if image_urls.length < 2 then
    .error (str "At least 2 images are required for comparison")
  else
    match promiseAllMap (processImage env) image_urls with
    | .error e => .error e
    | .ok processedImages =>
      let prompt := custom_prompt.getD defaultComparePrompt
      let content := processedImages.foldl
        (fun acc p => acc ++ [ContentBlock.image p.url])
        [ContentBlock.text prompt]
      .ok { model := modelName,
            messages := [{ role := .user, content := content }],
            stream := enableStreaming }

/- ============== Concrete values used by witnesses/counterexamples ====== -/

/-- An environment whose oracles all fail or return defaults; pure string
paths (data URLs, raw base64) never consult it. -/
def trivialEnv : Env :=
  { resolvePath := id, pathExists := fun _ => false, fileSize := fun _ => 0,
    mimeLookup := fun _ => none, readFileBase64 := fun _ => [],
    httpGet := fun _ => .err [], urlExtname := fun _ => [] }

/-- A syntactically valid base64 payload (51201 groups of `AAAA`) whose data
URL is 204826 characters long: past the 200 KB string gate but with an
estimated decoded size of only 153603 bytes, far below the 10 MB ceiling. -/
def bigPayload : Str := List.replicate 204804 'A'

/-- `data:image/png;base64,` followed by `bigPayload`. -/
def bigInput : Str := str "data:image/png;base64," ++ bigPayload

/-- A well-formed request with one user message (used to discharge
validation hypotheses). -/
def reqOk : ChatRequest :=
  { model := str "m",
    messages := [{ role := .user, content := [.text (str "hi")] }],
    stream := false }

/-- A request whose single user message has an empty content array. -/
def reqEmptyContent : ChatRequest :=
  { model := str "m",
    messages := [{ role := .user, content := [] }],
    stream := false }

/-- `reqOk` with `stream: true`. -/
def reqStream : ChatRequest := { reqOk with stream := true }

/-- A trivial parsed JSON body for non-streaming responses. -/
def dummyResp : ChatResponse :=
  { id := str "r1", object := str "chat.completion", created := 1, model := str "m",
    choices := [{ index := 0, message := some ⟨str "ok"⟩ }] }

/-- Streaming chunk with delta `"A"`. -/
def chunkA : ChatResponse :=
  { id := str "s", object := str "chat.completion.chunk", created := 1,
    model := str "m", choices := [{ index := 0, delta := some { content := some (str "A") } }] }

/-- Streaming chunk with delta `"B"`. -/
def chunkB : ChatResponse :=
  { id := str "s", object := str "chat.completion.chunk", created := 1,
    model := str "m", choices := [{ index := 0, delta := some { content := some (str "B") } }] }

/-- Terminal streaming chunk: empty delta, `finish_reason = stop`. -/
def chunkC : ChatResponse :=
  { id := str "s", object := str "chat.completion.chunk", created := 1,
    model := str "m",
    choices := [{ index := 0, delta := some { content := some [] },
                  finish_reason := some .stop }] }

/-- A `JSON.parse` oracle for the three-chunk stream. -/
def parse3 (s : Str) : Option ChatResponse :=
  if s = str "j1" then some chunkA
  else if s = str "j2" then some chunkB
  else if s = str "j3" then some chunkC
  else none

/-- The raw SSE stream delivering the three chunks, with one `data:` line
split across a read boundary and a `[DONE]` sentinel. -/
def stream3 : List Str :=
  [str "data: j1\nda", str "ta: j2\ndata: j3\n", str "data: [DONE]\n"]

/-- Left-biased choice on options (the semantics of `a || b` for JavaScript
object/null values, used to state last-write-wins facts about the retained
final response). -/
def orO : Option ChatResponse → Option ChatResponse → Option ChatResponse
  | some r, _ => some r
  | none, b => b

/-- The contribution of an optional chunk to the retained final response:
the chunk itself when its first choice carries `finish_reason = stop`. -/
def stopOf (o : Option ChatResponse) : Option ChatResponse :=
  o.bind fun r => if hasStop r then some r else none

/-- A small well-formed data URL. -/
def pngInput : Str := str "data:image/png;base64,AAAA"

/-- What `processImage` produces for `pngInput`. -/
def pngImg : ProcessedImage :=
  { url := str "data:image/png;base64,AAAA", mimeType := str "image/png", size := 3 }

/-- A second small well-formed data URL. -/
def jpgInput : Str := str "data:image/jpeg;base64,BBBB"

/-- What `processImage` produces for `jpgInput`. -/
def jpgImg : ProcessedImage :=
  { url := str "data:image/jpeg;base64,BBBB", mimeType := str "image/jpeg", size := 3 }

/- ===================== Theorems ===================== -/

theorem str_append (a b : String) : str (a ++ b) = str a ++ str b := rfl

theorem chatCompletionModel_attempts
    (maxRetries : Nat) (req : ChatRequest) (hasCb : Bool)
    (outcomes : Nat → HttpOutcome) (parse : Str → Option ChatResponse) (now : Nat)
    (hv : chatValidationError req = none) :
    (chatCompletionModel maxRetries req hasCb outcomes parse now).attempts
      = (runRetry maxRetries outcomes).attempts := by
  simp only [chatCompletionModel, hv]
  rcases hr : (runRetry maxRetries outcomes).outcome with b | st | _ <;>
    simp [hr] <;> split <;> rfl

theorem retryLoop_attempts_ge (outcomes : Nat → HttpOutcome) :
    ∀ remaining n delays, n + 1 ≤ (retryLoop outcomes n remaining delays).attempts := by
  intro remaining
  induction remaining with
  | zero =>
    intro n delays
    rcases h : outcomes n with b | st | _ <;> simp [retryLoop, h]
  | succ rem ih =>
    intro n delays
    rcases h : outcomes n with b | st | _ <;> simp [retryLoop, h] <;>
      (try split_ifs) <;> try simp
    · exact le_trans (by omega) (ih (n + 1) _)
    · exact le_trans (by omega) (ih (n + 1) _)

theorem messageErrors_ne_nil {m : ChatMessage} :
    ∀ (i : Nat) (l : List ChatMessage), m ∈ l → m.content = [] →
      messageErrors i l ≠ [] := by
  intro i l
  induction l generalizing i with
  | nil => intro h; cases h
  | cons a rest ih =>
    intro hm hc
    rcases List.mem_cons.1 hm with h | h
    · subst h
      simp [messageErrors, hc]
    · intro hcontra
      rcases List.append_eq_nil.1 hcontra with ⟨-, h2⟩
      exact ih (i + 1) h hc h2

/-- Claim C3: with `maxRetries = 3` and every HTTP attempt returning status
503, a `chatCompletion` call that passes request validation performs exactly
4 total attempts (1 initial + 3 retries) with backoff delays of 1000 ms,
2000 ms and 4000 ms inserted before the retries. -/
theorem c3_maxRetries3_503_four_attempts
    (req : ChatRequest) (hasCb : Bool) (parse : Str → Option ChatResponse)
    (now : Nat) (hv : chatValidationError req = none) :
    (chatCompletionModel 3 req hasCb (fun _ => .httpError 503) parse now).attempts = 4
    ∧ (chatCompletionModel 3 req hasCb (fun _ => .httpError 503) parse now).delays
        = [1000, 2000, 4000] := by
  have hr : runRetry 3 (fun _ => .httpError 503)
      = ⟨4, [1000, 2000, 4000], .httpError 503⟩ := rfl
  simp [chatCompletionModel, hv, hr]

/-- Witness for C3 at a concrete request. -/
theorem c3_witness :
    (chatCompletionModel 3 reqOk false (fun _ => .httpError 503) (fun _ => none) 0).attempts = 4
    ∧ (chatCompletionModel 3 reqOk false (fun _ => .httpError 503) (fun _ => none) 0).delays
        = [1000, 2000, 4000] :=
  c3_maxRetries3_503_four_attempts reqOk false (fun _ => none) 0 rfl

/-- Claim C4: a response with a 4xx status other than 429 on the first
attempt is never retried — exactly one attempt is made, no backoff delay is
inserted, and the failure is surfaced immediately as the settled error. -/
theorem c4_4xx_single_attempt
    (maxRetries : Nat) (req : ChatRequest) (hasCb : Bool)
    (outcomes : Nat → HttpOutcome) (parse : Str → Option ChatResponse)
    (now : Nat) (s : Nat)
    (hv : chatValidationError req = none)
    (h0 : outcomes 0 = .httpError s)
    (h400 : 400 ≤ s) (h500 : s < 500) (h429 : s ≠ 429) :
    (chatCompletionModel maxRetries req hasCb outcomes parse now).attempts = 1
    ∧ (chatCompletionModel maxRetries req hasCb outcomes parse now).delays = []
    ∧ (chatCompletionModel maxRetries req hasCb outcomes parse now).result
        = .error (str "Chat completion failed: " ++ axiosErrorMessage (.httpError s)) := by
  have hsr : shouldRetry (.httpError s) = false := by
    simp [shouldRetry]
    omega
  have hr : runRetry maxRetries outcomes = ⟨1, [], .httpError s⟩ := by
    unfold runRetry
    cases maxRetries with
    | zero => simp [retryLoop, h0]
    | succ rem => simp [retryLoop, h0, hsr]
  simp [chatCompletionModel, hv, hr]

/-- Witness for C4 at status 404 with `maxRetries = 3`. -/
theorem c4_witness :
    (chatCompletionModel 3 reqOk false (fun _ => .httpError 404) (fun _ => none) 0).attempts = 1
    ∧ (chatCompletionModel 3 reqOk false (fun _ => .httpError 404) (fun _ => none) 0).delays = []
    ∧ (chatCompletionModel 3 reqOk false (fun _ => .httpError 404) (fun _ => none) 0).result
        = .error (str "Chat completion failed: " ++ axiosErrorMessage (.httpError 404)) :=
  c4_4xx_single_attempt 3 reqOk false (fun _ => .httpError 404) (fun _ => none) 0 404
    rfl rfl (by omega) (by omega) (by omega)

/-- Claim C1 is false on the code: a request whose single message carries an
empty content array passes `chatCompletion`'s inline validation (JavaScript
`!message.content` is false for `[]` and `Array.isArray([])` is true), no
`InvalidRequest` is raised, and the HTTP POST is issued (one attempt,
carrying that very request). -/
theorem c1_counterexample :
    chatValidationError reqEmptyContent = none
    ∧ (chatCompletionModel 3 reqEmptyContent false
        (fun _ => .ok (.json dummyResp)) (fun _ => none) 0).attempts = 1
    ∧ (chatCompletionModel 3 reqEmptyContent false
        (fun _ => .ok (.json dummyResp)) (fun _ => none) 0).posted
        = some reqEmptyContent :=
  ⟨rfl, rfl, rfl⟩

/-- Claim C1 (amended): `chatCompletion` does not reject a message whose
content sequence is empty.  For every request with a non-blank model and a
non-empty messages list that contains a message with an empty content array,
the inline validation passes (no `InvalidRequest`), at least one HTTP
attempt is made, while the separate `validateChatRequest` helper — which is
not invoked by `chatCompletion` — does flag the request as invalid. -/
theorem c1_amended
    (maxRetries : Nat) (req : ChatRequest) (m : ChatMessage) (hasCb : Bool)
    (outcomes : Nat → HttpOutcome) (parse : Str → Option ChatResponse) (now : Nat)
    (hm : m ∈ req.messages) (hc : m.content = [])
    (hmodel : jsTrim req.model ≠ []) (hmsgs : req.messages ≠ []) :
    chatValidationError req = none
    ∧ 1 ≤ (chatCompletionModel maxRetries req hasCb outcomes parse now).attempts
    ∧ (validateChatRequest req).1 = false := by
  have hv : chatValidationError req = none := by
    simp [chatValidationError, hmodel, hmsgs]
  refine ⟨hv, ?_, ?_⟩
  · have h1 := retryLoop_attempts_ge outcomes maxRetries 0 []
    rw [chatCompletionModel_attempts maxRetries req hasCb outcomes parse now hv]
    simpa [runRetry] using h1
  · have hne := messageErrors_ne_nil 0 req.messages hm hc
    simp [validateChatRequest, List.isEmpty_iff, hne]

/-- Witness for the amended C1 at a concrete empty-content request. -/
theorem c1_witness :
    chatValidationError reqEmptyContent = none
    ∧ 1 ≤ (chatCompletionModel 3 reqEmptyContent true
        (fun _ => .netError) (fun _ => none) 0).attempts
    ∧ (validateChatRequest reqEmptyContent).1 = false :=
  c1_amended 3 reqEmptyContent { role := .user, content := [] } true
    (fun _ => .netError) (fun _ => none) 0 (by decide) rfl (by decide) (by decide)

/-- Claim C10: when `chatCompletion` is called with `stream = true` but no
`onChunk` callback, the SSE-accumulation path is skipped: no chunk callback
is ever invoked and the raw response body is returned verbatim (the
`response?.data as ChatResponse` cast), without parsing any `data:` lines. -/
theorem c10_no_callback_raw_body
    (maxRetries : Nat) (req : ChatRequest) (outcomes : Nat → HttpOutcome)
    (parse : Str → Option ChatResponse) (now : Nat) (body : BodyData)
    (hv : chatValidationError req = none) (hs : req.stream = true)
    (h0 : outcomes 0 = .ok body) :
    (chatCompletionModel maxRetries req false outcomes parse now).result
        = .ok (.rawBody body)
    ∧ (chatCompletionModel maxRetries req false outcomes parse now).chunkEvents = []
    ∧ (chatCompletionModel maxRetries req false outcomes parse now).attempts = 1 := by
  have hr : runRetry maxRetries outcomes = ⟨1, [], .ok body⟩ := by
    unfold runRetry
    cases maxRetries with
    | zero => simp [retryLoop, h0]
    | succ rem => simp [retryLoop, h0]
  simp [chatCompletionModel, hv, hr]

/-- Witness for C10 at a concrete streaming request with an SSE body. -/
theorem c10_witness :
    (chatCompletionModel 3 reqStream false (fun _ => .ok (.sse [str "data: x"]))
        (fun _ => none) 0).result = .ok (.rawBody (.sse [str "data: x"]))
    ∧ (chatCompletionModel 3 reqStream false (fun _ => .ok (.sse [str "data: x"]))
        (fun _ => none) 0).chunkEvents = []
    ∧ (chatCompletionModel 3 reqStream false (fun _ => .ok (.sse [str "data: x"]))
        (fun _ => none) 0).attempts = 1 :=
  c10_no_callback_raw_body 3 reqStream (fun _ => .ok (.sse [str "data: x"]))
    (fun _ => none) 0 (.sse [str "data: x"]) rfl rfl rfl

/-- Claim C2 is false on the code: `http://x/BASE64` starts with `http://`
followed by further characters, yet the dispatch in `processImage` routes it
to the base64 path, because the `includes('BASE64')` pass-through test runs
before the HTTP/HTTPS regex. -/
theorem c2_counterexample :
    startsW (str "http://") (str "http://x/BASE64") = true
    ∧ dispatchPath (str "http://x/BASE64") ≠ ProcessPath.urlPath
    ∧ dispatchPath (str "http://x/BASE64") = ProcessPath.base64Path := by
  refine ⟨rfl, ?_, rfl⟩
  decide

/-- Claim C2 (amended): an input starting with `http://` or `https://`
followed by at least one non-line-terminator character is routed to the
URL-processing path, provided it does not contain the substring `BASE64`
(the pass-through test evaluated first). -/
theorem c2_amended (s tail : Str) (c : Char)
    (hshape : s = str "http://" ++ c :: tail ∨ s = str "https://" ++ c :: tail)
    (hdot : isJsDot c = true)
    (hB : containsSub (str "BASE64") s = false) :
    dispatchPath s = ProcessPath.urlPath := by
  have hhttp : httpUrlTest s = true := by
    rcases hshape with h | h <;> subst h
    · rw [show httpUrlTest (str "http://" ++ c :: tail) = isJsDot c from rfl, hdot]
    · rw [show httpUrlTest (str "https://" ++ c :: tail) = isJsDot c from rfl, hdot]
  rcases hshape with h | h <;> subst h <;> simp [dispatchPath, hB, hhttp]

/-- Witness for the amended C2 at a concrete URL. -/
theorem c2_witness : dispatchPath (str "http://a/b.png") = ProcessPath.urlPath :=
  c2_amended (str "http://a/b.png") (str "/b.png") 'a'
    (Or.inl (by decide)) (by decide) (by decide)

theorem orO_none_right (a : Option ChatResponse) : orO a none = a := by
  cases a <;> rfl

theorem orO_assoc (a b c : Option ChatResponse) :
    orO (orO a b) c = orO a (orO b c) := by
  cases a <;> rfl

theorem processLine_events (parse : Str → Option ChatResponse) (acc : StreamAcc)
    (line : Str) :
    (processLine parse acc line).events
      = acc.events ++ ((dataPayload line).bind parse).toList := by
  unfold processLine dataPayload
  by_cases h1 : startsW (str "data: ") line = true <;> simp [h1]
  by_cases h2 : line.drop 6 = str "[DONE]" <;> simp [h2]
  cases hp : parse (line.drop 6) <;> simp [hp]

theorem stopOf_some (r : ChatResponse) :
    stopOf (some r) = if hasStop r = true then some r else none := rfl

theorem processLine_final (parse : Str → Option ChatResponse) (acc : StreamAcc)
    (line : Str) :
    (processLine parse acc line).finalResponse
      = orO (stopOf ((dataPayload line).bind parse)) acc.finalResponse := by
  unfold processLine dataPayload stopOf
  by_cases h1 : startsW (str "data: ") line = true <;> simp [h1, orO]
  by_cases h2 : line.drop 6 = str "[DONE]" <;> simp [h2, orO]
  cases hp : parse (line.drop 6) with
  | none => simp [hp, orO]
  | some v => by_cases h3 : hasStop v = true <;> simp [hp, h3, orO]

theorem foldl_processLine_events (parse : Str → Option ChatResponse)
    (ls : List Str) : ∀ acc : StreamAcc,
    (ls.foldl (processLine parse) acc).events
      = acc.events ++ ls.filterMap (fun l => (dataPayload l).bind parse) := by
  induction ls with
  | nil => intro acc; simp
  | cons l ls ih =>
    intro acc
    simp only [List.foldl_cons, ih, processLine_events]
    cases hl : (dataPayload l).bind parse <;> simp [List.filterMap_cons, hl]

theorem getLast?_cons_orO (a : ChatResponse) (l : List ChatResponse) :
    (a :: l).getLast? = orO l.getLast? (some a) := by
  induction l generalizing a with
  | nil => rfl
  | cons b m ih =>
    rw [List.getLast?_cons_cons, ih b]
    cases m.getLast? <;> rfl

theorem lastStop_cons (r : ChatResponse) (rest : List ChatResponse) :
    lastStop (r :: rest) = orO (lastStop rest) (stopOf (some r)) := by
  rw [stopOf_some]
  by_cases h : hasStop r = true
  · rw [if_pos h]
    unfold lastStop
    simp only [List.filter_cons, h, if_true]
    exact getLast?_cons_orO r _
  · rw [if_neg h]
    unfold lastStop
    simp only [List.filter_cons, h, if_false]
    exact (orO_none_right _).symm

theorem foldl_processLine_final (parse : Str → Option ChatResponse)
    (ls : List Str) : ∀ acc : StreamAcc,
    (ls.foldl (processLine parse) acc).finalResponse
      = orO (lastStop (ls.filterMap fun l => (dataPayload l).bind parse))
            acc.finalResponse := by
  induction ls with
  | nil => intro acc; rfl
  | cons l ls ih =>
    intro acc
    simp only [List.foldl_cons, ih, processLine_final]
    cases hl : (dataPayload l).bind parse with
    | none =>
      simp only [List.filterMap_cons, hl]
      rw [show stopOf none = none from rfl]
      rw [show ∀ x, orO none x = x from fun _ => rfl]
    | some r =>
      simp only [List.filterMap_cons, hl, lastStop_cons, ← orO_assoc]

theorem handleStreamLoop_foldl (parse : Str → Option ChatResponse) :
    ∀ (stream : List Str) (buffer : Str) (acc : StreamAcc),
    handleStreamLoop parse stream buffer acc
      = (allLinesLoop stream buffer).foldl (processLine parse) acc := by
  intro stream
  induction stream with
  | nil =>
    intro buffer acc
    simp only [handleStreamLoop, allLinesLoop]
    split_ifs <;> simp
  | cons c rest ih =>
    intro buffer acc
    simp only [handleStreamLoop, allLinesLoop, List.foldl_append, ih]

theorem handleStreamResponse_events (parse : Str → Option ChatResponse)
    (stream : List Str) :
    (handleStreamResponse parse stream).events
      = (dataPayloads stream).filterMap parse := by
  unfold handleStreamResponse dataPayloads
  rw [handleStreamLoop_foldl, foldl_processLine_events, List.filterMap_filterMap]
  rfl

theorem handleStreamResponse_final (parse : Str → Option ChatResponse)
    (stream : List Str) :
    (handleStreamResponse parse stream).finalResponse
      = lastStop ((handleStreamResponse parse stream).events) := by
  unfold handleStreamResponse
  rw [handleStreamLoop_foldl, foldl_processLine_final, foldl_processLine_events]
  simp [orO_none_right]

theorem accumStep_foldl (evs : List ChatResponse) :
    ∀ acc : Str, evs.foldl accumStep acc = acc ++ concatDeltas evs := by
  induction evs with
  | nil => intro acc; simp [concatDeltas]
  | cons e evs ih =>
    intro acc
    simp only [List.foldl_cons, ih]
    unfold accumStep concatDeltas
    by_cases h : deltaContent e = [] <;> simp [h]

theorem accumulate_eq_concat (evs : List ChatResponse) :
    accumulateChunks evs = concatDeltas evs := by
  unfold accumulateChunks
  rw [accumStep_foldl]
  rfl

/-- Claim C5: for every streamed response, `onChunk` is invoked in arrival
order, once per complete non-sentinel `data: ` line (those whose payload
`JSON.parse`s), and the accumulated text equals the concatenation of the
chunks' delta contents in arrival order; in particular, for three chunks
with deltas `"A"`, `"B"`, `""` (the last carrying `finish_reason = stop`)
the accumulated text is `"AB"`. -/
theorem c5_stream_accumulation :
    (∀ (parse : Str → Option ChatResponse) (stream : List Str),
      (handleStreamResponse parse stream).events = (dataPayloads stream).filterMap parse
      ∧ accumulateChunks (handleStreamResponse parse stream).events
          = concatDeltas (handleStreamResponse parse stream).events)
    ∧ (handleStreamResponse parse3 stream3).events = [chunkA, chunkB, chunkC]
    ∧ accumulateChunks (handleStreamResponse parse3 stream3).events = str "AB" := by
  refine ⟨fun parse stream =>
    ⟨handleStreamResponse_events parse stream, accumulate_eq_concat _⟩, ?_, ?_⟩
  · decide
  · decide

/-- Claim C6: the retained final response of a stream is the last chunk
whose first choice carries `finish_reason = stop`, and the streaming branch
of `chatCompletion` returns it; when no chunk ever carries that marker it
returns the empty placeholder `createEmptyResponse`, whose `choices` is
`[]`. -/
theorem c6_final_response (parse : Str → Option ChatResponse)
    (stream : List Str) (now : Nat) (model : Str) :
    (handleStreamResponse parse stream).finalResponse
        = lastStop ((handleStreamResponse parse stream).events)
    ∧ chatCompletionStreamFinal parse stream now model
        = (lastStop ((handleStreamResponse parse stream).events)).getD
            (createEmptyResponse now model)
    ∧ (createEmptyResponse now model).choices = [] := by
  refine ⟨handleStreamResponse_final parse stream, ?_, rfl⟩
  unfold chatCompletionStreamFinal
  rw [handleStreamResponse_final]

theorem promiseAllMap_ok (f : Str → Except Str ProcessedImage) :
    ∀ (l : List Str) (ys : List ProcessedImage), promiseAllMap f l = .ok ys →
      ys.length = l.length ∧
      ∀ i (h1 : i < l.length) (h2 : i < ys.length),
        f (l.get ⟨i, h1⟩) = .ok (ys.get ⟨i, h2⟩) := by
  intro l
  induction l with
  | nil =>
    intro ys h
    simp only [promiseAllMap, Except.ok.injEq] at h
    subst h
    exact ⟨rfl, fun i h1 => absurd h1 (by simp)⟩
  | cons u rest ih =>
    intro ys h
    unfold promiseAllMap at h
    rcases hf : f u with e | img <;> rw [hf] at h
    · exact absurd h (by simp)
    · rcases hr : promiseAllMap f rest with e | imgs <;> rw [hr] at h
      · exact absurd h (by simp)
      · simp only [Except.ok.injEq] at h
        subst h
        obtain ⟨hlen, hnth⟩ := ih imgs hr
        refine ⟨by simp [hlen], ?_⟩
        intro i h1 h2
        cases i with
        | zero => simpa using hf
        | succ j =>
          simp only [List.get_cons_succ]
          exact hnth j (by simpa using h1) (by simpa using h2)

theorem foldl_push_blocks (imgs : List ProcessedImage) :
    ∀ acc : List ContentBlock,
    imgs.foldl (fun acc p => acc ++ [ContentBlock.image p.url]) acc
      = acc ++ imgs.map (fun p => ContentBlock.image p.url) := by
  induction imgs with
  | nil => intro acc; simp
  | cons p imgs ih => intro acc; simp [ih]

/-- Claim C7: when every reference normalizes successfully, the single user
message built by `compare_images` carries exactly the prompt text block
followed by one image block per reference, in caller-supplied order: the
normalized images list has one entry per URL and its `i`-th entry is the
normalization of the `i`-th caller URL (`Promise.all` reassembles results
by index, independent of completion order). -/
theorem c7_compare_order (env : Env) (modelName : Str) (es : Bool)
    (urls : List Str) (cp : Option Str) (imgs : List ProcessedImage)
    (h2 : 2 ≤ urls.length)
    (hok : promiseAllMap (processImage env) urls = .ok imgs) :
    buildCompareRequest env modelName es urls cp
      = .ok { model := modelName,
              messages := [{ role := .user,
                             content := .text (cp.getD defaultComparePrompt)
                               :: imgs.map fun p => ContentBlock.image p.url }],
              stream := es }
    ∧ imgs.length = urls.length
    ∧ ∀ i (h1 : i < urls.length) (hi : i < imgs.length),
        processImage env (urls.get ⟨i, h1⟩) = .ok (imgs.get ⟨i, hi⟩) := by
  obtain ⟨hlen, hnth⟩ := promiseAllMap_ok (processImage env) urls imgs hok
  refine ⟨?_, hlen, hnth⟩
  unfold buildCompareRequest
  rw [if_neg (by omega), hok]
  simp only [foldl_push_blocks, List.singleton_append]

/-- Witness for C7 at two concrete data URLs. -/
theorem c7_witness :
    buildCompareRequest trivialEnv (str "m") false [pngInput, jpgInput] none
      = .ok { model := str "m",
              messages := [{ role := .user,
                             content := .text defaultComparePrompt
                               :: [pngImg, jpgImg].map fun p => ContentBlock.image p.url }],
              stream := false }
    ∧ ([pngImg, jpgImg] : List ProcessedImage).length = ([pngInput, jpgInput] : List Str).length
    ∧ processImage trivialEnv ([pngInput, jpgInput].get ⟨0, by decide⟩)
        = .ok (([pngImg, jpgImg] : List ProcessedImage).get ⟨0, by decide⟩)
    ∧ processImage trivialEnv ([pngInput, jpgInput].get ⟨1, by decide⟩)
        = .ok (([pngImg, jpgImg] : List ProcessedImage).get ⟨1, by decide⟩) := by
  have h := c7_compare_order trivialEnv (str "m") false [pngInput, jpgInput] none
    [pngImg, jpgImg] (by decide) rfl
  exact ⟨h.1, h.2.1, h.2.2 0 (by decide) (by decide), h.2.2 1 (by decide) (by decide)⟩

theorem validateImage_mem {info : ImageInfo} (h : validateImage info = .ok ()) :
    info.mimeType ∈ SUPPORTED_MIME_TYPES := by
  unfold validateImage at h
  by_cases hc : SUPPORTED_MIME_TYPES.contains info.mimeType = true
  · simpa using hc
  · have hm : info.mimeType ∉ SUPPORTED_MIME_TYPES := by simpa using hc
    simp [hm] at h

theorem finishImage_mem {info : ImageInfo} {img : ProcessedImage}
    (h : finishImage info = .ok img) :
    img.mimeType ∈ SUPPORTED_MIME_TYPES := by
  unfold finishImage at h
  rcases hv : validateImage info with e | u <;> rw [hv] at h
  · exact absurd h (by simp)
  · simp only [Except.ok.injEq] at h
    subst h
    cases u
    exact validateImage_mem hv

/-- Claim C9: every successfully normalized image carries a MIME type from
the fixed supported set — whichever path produced it, for every oracle
environment; a derived MIME type outside the set always fails
(`Unsupported image type`), never silently coerced. -/
theorem c9_mime_invariant (env : Env) (input : Str) (img : ProcessedImage)
    (h : processImage env input = .ok img) :
    img.mimeType ∈ SUPPORTED_MIME_TYPES := by
  unfold processImage at h
  dsimp only at h
  split at h <;>
    (split at h
     · exact absurd h (by simp)
     · split at h
       · exact absurd h (by simp)
       · exact finishImage_mem h)

/-- Witness for C9: the concrete data URL `pngInput` normalizes successfully
and its MIME type is in the supported set. -/
theorem c9_witness : pngImg.mimeType ∈ SUPPORTED_MIME_TYPES :=
  c9_mime_invariant trivialEnv pngInput pngImg rfl

theorem startsW_cons_ne_nil {a : Char} {as s : Str}
    (h : startsW (a :: as) s = true) : s ≠ [] := by
  cases s
  · simp [startsW] at h
  · simp

theorem filter_notWs_replicateA (n : Nat) :
    (List.replicate n 'A').filter (fun c => !isJsWs c) = List.replicate n 'A' := by
  induction n with
  | zero => rfl
  | succ m ih =>
    simp only [List.replicate_succ, List.filter_cons, ih,
      show (!isJsWs 'A') = true from rfl, if_true]

theorem base64Body_replicateA (n : Nat) :
    base64Body (List.replicate (4 * n) 'A') = true := by
  induction n with
  | zero => rfl
  | succ m ih =>
    have h4 : 4 * (m + 1) = 4 + 4 * m := by ring
    rw [h4, List.replicate_add]
    show base64Body ('A' :: 'A' :: 'A' :: 'A' :: List.replicate (4 * m) 'A') = true
    simp [base64Body, ih, show b64Char 'A' = true from rfl]

theorem isValidBase64_bigPayload : isValidBase64 bigPayload = true := by
  unfold isValidBase64 bigPayload
  rw [filter_notWs_replicateA]
  rw [show (204804 : Nat) = 4 * 51201 by norm_num]
  exact base64Body_replicateA 51201

/-- Claim C8 is false on the code: `bigInput` has the exact form
`data:<mime>;base64,<payload>` with a supported MIME type, a syntactically
valid base64 payload and an estimated decoded size (153603 bytes) far below
the 10 MB ceiling, yet `processImage` rejects it — the 200 KB pre-validation
gate on the literal reference string fires first. -/
theorem c8_counterexample :
    SUPPORTED_MIME_TYPES.contains (str "image/png") = true
    ∧ isValidBase64 bigPayload = true
    ∧ bigPayload.length * 3 / 4 ≤ MAX_FILE_SIZE
    ∧ processImage trivialEnv bigInput
        = .error (str "Invalid image input: Image input is too large (max 200KB)") := by
  have hlen : bigInput.length = 204826 := by
    unfold bigInput bigPayload
    rw [List.length_append, List.length_replicate]
    decide
  have hne : bigInput ≠ [] := by
    intro h
    rw [h] at hlen
    simp at hlen
  have hshape : shapeErrors bigInput = [] := by
    unfold shapeErrors
    rw [show isFileInput bigInput = false by decide]
    rw [show httpUrlTest bigInput = false by decide]
    rw [show containsSub (str "base64") bigInput = true by decide]
    simp
  have hval : validateImageInput bigInput
      = (false, [str "Image input is too large (max 200KB)"]) := by
    unfold validateImageInput lengthErrors
    rw [if_neg hne, hlen, hshape]
    norm_num
  refine ⟨rfl, isValidBase64_bigPayload, ?_, ?_⟩
  · unfold bigPayload
    rw [List.length_replicate]
    norm_num [MAX_FILE_SIZE]
  · unfold processImage
    dsimp only
    rw [if_neg (show ¬(startsW (str "file://") bigInput = true) by decide)]
    rw [hval]
    rfl

/-- Claim C8 (amended): the data-URL round-trip identity holds once the
reference string is also within the 200 KB pre-validation gate: for every
supported MIME type, syntactically valid base64 payload and in-ceiling
estimated size, `processImage` on `data:<mime>;base64,<payload>` succeeds
with the declared header MIME, the payload passed through unchanged, and an
output URL equal to the input string. -/
theorem c8_amended (env : Env) (mime payload : Str)
    (hmem : mime ∈ SUPPORTED_MIME_TYPES)
    (hb64 : isValidBase64 payload = true)
    (hsize : payload.length * 3 / 4 ≤ MAX_FILE_SIZE)
    (hgate : (str "data:" ++ mime ++ str ";base64," ++ payload).length ≤ 200 * 1024) :
    processImage env (str "data:" ++ mime ++ str ";base64," ++ payload)
      = .ok { url := str "data:" ++ mime ++ str ";base64," ++ payload,
              mimeType := mime, size := payload.length * 3 / 4 } := by
  have f1 : startsW (str "file://") (str "data:" ++ mime ++ str ";base64," ++ payload) = false := by
    fin_cases hmem <;> rfl
  have f2 : shapeErrors (str "data:" ++ mime ++ str ";base64," ++ payload) = [] := by
    fin_cases hmem <;> rfl
  have f3 : httpUrlTest (str "data:" ++ mime ++ str ";base64," ++ payload) = false := by
    fin_cases hmem <;> rfl
  have f4 : isFileInput (str "data:" ++ mime ++ str ";base64," ++ payload) = false := by
    fin_cases hmem <;> rfl
  have f5 : parseDataHeader (str "data:" ++ mime ++ str ";base64," ++ payload)
      = some (mime, payload) := by
    fin_cases hmem <;> rfl
  have f6 : SUPPORTED_MIME_TYPES.contains mime = true := by
    fin_cases hmem <;> rfl
  have hlen : (str "data:" ++ mime ++ str ";base64," ++ payload).length
      = 13 + mime.length + payload.length := by
    simp only [List.length_append]
    rw [show (str "data:").length = 5 from rfl, show (str ";base64,").length = 8 from rfl]
    omega
  have hne : (str "data:" ++ mime ++ str ";base64," ++ payload) ≠ [] := by
    intro h
    have hl := congrArg List.length h
    rw [hlen] at hl
    simp at hl
  have hval : validateImageInput (str "data:" ++ mime ++ str ";base64," ++ payload)
      = (true, []) := by
    unfold validateImageInput lengthErrors
    rw [if_neg hne, f2, hlen]
    rw [if_neg (show ¬(13 + mime.length + payload.length = 0) by omega)]
    rw [if_neg (show ¬(13 + mime.length + payload.length > 200 * 1024) by
      rw [hlen] at hgate; omega)]
    rfl
  have hdis : dispatchPath (str "data:" ++ mime ++ str ";base64," ++ payload)
      = .base64Path := by
    unfold dispatchPath
    by_cases hB : containsSub (str "BASE64") (str "data:" ++ mime ++ str ";base64," ++ payload) = true
    · rw [if_pos hB]
    · rw [if_neg hB,
        if_neg (show ¬(httpUrlTest (str "data:" ++ mime ++ str ";base64," ++ payload) = true) by
          rw [f3]; decide),
        if_neg (show ¬(isFileInput (str "data:" ++ mime ++ str ";base64," ++ payload) = true) by
          rw [f4]; decide)]
  have hb : processBase64Input (str "data:" ++ mime ++ str ";base64," ++ payload)
      = .ok ⟨.base64, payload, mime, payload.length * 3 / 4⟩ := by
    unfold processBase64Input
    rw [f5]
    dsimp only
    rw [if_neg (show ¬((!SUPPORTED_MIME_TYPES.contains mime) = true) by rw [f6]; decide)]
    rw [if_neg (show ¬(payload.length * 3 / 4 > MAX_FILE_SIZE) by omega)]
    rw [if_neg (show ¬((!isValidBase64 payload) = true) by rw [hb64]; decide)]
  have hfin : finishImage ⟨.base64, payload, mime, payload.length * 3 / 4⟩
      = .ok { url := str "data:" ++ mime ++ str ";base64," ++ payload,
              mimeType := mime, size := payload.length * 3 / 4 } := by
    unfold finishImage validateImage
    dsimp only
    rw [if_neg (show ¬((!SUPPORTED_MIME_TYPES.contains mime) = true) by rw [f6]; decide)]
    rw [if_neg (show ¬(payload.length * 3 / 4 > MAX_FILE_SIZE) by omega)]
    rw [if_neg (show
      ¬(((decide (ImageSrcType.base64 = ImageSrcType.base64)
           || decide (ImageSrcType.base64 = ImageSrcType.url))
          && !isValidBase64 payload) = true) by rw [hb64]; decide)]
    rfl
  unfold processImage
  dsimp only
  rw [if_neg (show
    ¬(startsW (str "file://") (str "data:" ++ mime ++ str ";base64," ++ payload) = true) by
      rw [f1]; decide)]
  rw [hval]
  rw [if_neg (show ¬((!(true, ([] : List Str)).1) = true) by simp)]
  rw [hdis]
  dsimp only
  rw [hb]
  dsimp only
  exact hfin

/-- Witness for the amended C8 at a small concrete data URL. -/
theorem c8_witness :
    processImage trivialEnv (str "data:" ++ str "image/png" ++ str ";base64," ++ str "AAAA")
      = .ok { url := str "data:" ++ str "image/png" ++ str ";base64," ++ str "AAAA",
              mimeType := str "image/png", size := (str "AAAA").length * 3 / 4 } :=
  c8_amended trivialEnv (str "image/png") (str "AAAA")
    (by decide) (by decide) (by decide) (by decide)
